import Mathlib

/-!
# Verification of the k3d shared-registry subsystem (`cli/registry.go`)

A shallow embedding of the registry lifecycle code: the config emitter
(`writeRegistriesConfigInContainer`), the creation path (`createRegistry`)
and the teardown path (`disconnectRegistryFromNetwork`), together with the
runtime-adapter calls they make.  Calls into the container runtime are
modelled by an explicit environment (`Env`) describing the runtime's
responses for one lifecycle call; each lifecycle function returns its
outcome together with the list of state-mutating runtime calls it
successfully performed (`Effect`) and the log lines it emitted, so that
"best-effort, log and continue" and "abort with an error" control flow is
observable in the model.
-/

namespace K3d

/-! ## Constants (`cli/registry.go`, `const` block and label maps) -/

def defaultRegistryContainerName : String := "k3d-registry"

def defaultRegistryImage : String := "registry:2"

/-- Default registry port, both for the external and the internal ports.
The internal port is never changed. -/
def defaultRegistryPort : Nat := 5000

def defaultFullRegistriesPath : String := "/etc/rancher/k3s/registries.yaml"

def defaultRegistryMountPath : String := "/var/lib/registry"

def defaultDockerHubAddress : String := "docker.io"

def defaultDockerRegistryHubAddress : String := "registry-1.docker.io"

/-- Default labels assigned to the registry container. -/
def defaultRegistryContainerLabels : List (String × String) :=
  [("app", "k3d"), ("component", "registry")]

/-- Default labels assigned to the registry volume. -/
def defaultRegistryVolumeLabels : List (String × String) :=
  [("app", "k3d"), ("component", "registry"), ("managed", "true")]

/-! ## The mirror-configuration document (`Registry` / `Mirror` structs) -/

/-- `Mirror` contains the config related to the registry mirror: the ordered
list of endpoint URLs for a namespace. -/
structure Mirror where
  Endpoints : List String
deriving DecidableEq, Repr

/-- `Registry` is the registries configuration document.  Go represents
`Mirrors` as a map; here it is an association list with unique keys kept by
an insert-or-replace operation.  `Configs` and `Auths` are opaque
pass-through data never touched by this code. -/
structure Registry where
  Mirrors : List (String × Mirror)
  Configs : List (String × String)
  Auths : List (String × String)
deriving DecidableEq, Repr

/-- Map-style insertion into the mirrors association list: replace the
binding if the key is present, append it otherwise (Go map assignment
`m[k] = v`). -/
def insertMirror : List (String × Mirror) → String → Mirror → List (String × Mirror)
  | [], k, m => [(k, m)]
  | (k', m') :: rest, k, m =>
      if k' = k then (k, m) :: rest else (k', m') :: insertMirror rest k m

/-! ## Host configuration and the `mergo` merge -/

/-- Docker's `container.RestartPolicy`, reduced to the one field this code
touches. -/
structure RestartPolicy where
  Name : String
deriving DecidableEq, Repr

/-- Docker's `container.HostConfig`, reduced to the fields this code sets or
merges.  `PortBindings` is kept as the list of port-spec strings it was
built from; `Init` is Go's `*bool` (nil = `none`). -/
structure HostConfig where
  PortBindings : List String
  Privileged : Bool
  Init : Option Bool
  RestartPolicy : RestartPolicy
  Binds : List String
deriving DecidableEq, Repr

/-- The zero value of `HostConfig` (Go's zero struct). -/
def HostConfig.zero : HostConfig :=
  { PortBindings := [], Privileged := false, Init := none,
    RestartPolicy := ⟨""⟩, Binds := [] }

/-- Modelled from the documented semantics of `mergo.Merge(dst, src)` called
with no options, on `RestartPolicy`: a zero-valued field of `dst` is filled
from `src`; a non-zero field of `dst` is kept. -/
def mergoMergeRestartPolicy (dst src : RestartPolicy) : RestartPolicy :=
  ⟨if dst.Name = "" then src.Name else dst.Name⟩

/-- Modelled from the documented semantics of `mergo.Merge(dst, src)` called
with no options (no `WithOverride`): fields of `dst` holding their zero
value (nil slice/pointer, `false`, `""`) are filled from `src`; non-zero
fields of `dst` are kept; embedded structs are merged recursively.  A deep
merge in which `dst` wins wherever it already has a value. -/
def mergoMergeHostConfig (dst src : HostConfig) : HostConfig where
  PortBindings := if dst.PortBindings = [] then src.PortBindings else dst.PortBindings
  Privileged := if dst.Privileged = false then src.Privileged else dst.Privileged
  Init := if dst.Init = none then src.Init else dst.Init
  RestartPolicy := mergoMergeRestartPolicy dst.RestartPolicy src.RestartPolicy
  Binds := if dst.Binds = [] then src.Binds else dst.Binds

/-! ## Cluster spec -/

/-- The fields of Go's `ClusterSpec` used by `cli/registry.go`. -/
structure ClusterSpec where
  ClusterName : String
  RegistryName : String
  RegistryPort : Nat
  RegistriesFile : String
  RegistryEnabled : Bool
  RegistryCacheEnabled : Bool
  RegistryVolume : String
  AutoRestart : Bool
  HostConfig : HostConfig
deriving DecidableEq, Repr

/-- `<registryName>:<internalPort>` (`registryInternalAddress`). -/
def registryInternalAddress (spec : ClusterSpec) : String :=
  spec.RegistryName ++ ":" ++ toString defaultRegistryPort

/-- `<registryName>:<externalPort>` (`registryExternalAddress`). -/
def registryExternalAddress (spec : ClusterSpec) : String :=
  spec.RegistryName ++ ":" ++ toString spec.RegistryPort

/-! ## The Config Emitter (`writeRegistriesConfigInContainer`) -/

/-- The document built by `writeRegistriesConfigInContainer` before it is
serialized and copied into the container at `defaultFullRegistriesPath`.
`base` is the parsed content of the file named by `spec.RegistriesFile`;
it is consulted only when that file name is non-empty, matching
`if len(spec.RegistriesFile) > 0`.  (The surrounding I/O — reading the base
file instead of taking it as an argument, and `copyToContainer` at the
end — is not modelled; read/parse/copy failures simply propagate.) -/
def writeRegistriesConfig (spec : ClusterSpec) (base : Registry) : Registry :=
  let privRegistries : Registry :=
    if spec.RegistriesFile.length > 0 then base else ⟨[], [], []⟩
  if spec.RegistryEnabled then
    let mirrors :=
      insertMirror privRegistries.Mirrors (registryExternalAddress spec)
        ⟨["http://" ++ registryInternalAddress spec]⟩
    let mirrors :=
      if spec.RegistryCacheEnabled then
        insertMirror mirrors defaultDockerHubAddress
          ⟨["http://" ++ registryInternalAddress spec]⟩
      else mirrors
    { privRegistries with Mirrors := mirrors }
  else privRegistries

/-! ## The runtime adapter -/

/-- A docker volume as seen through the runtime adapter: a name and its
labels. -/
structure Volume where
  name : String
  labels : List (String × String)
deriving DecidableEq, Repr

/-- Modelled from the spec: `getVolume(name, labels)` asks the runtime
adapter for the named volume and returns it only when it exists and carries
every one of the required labels (all must match); `none` is the not-found,
non-error branch condition.  (`getVolume` lives outside `cli/registry.go`.) -/
def getVolume (vols : List Volume) (name : String) (req : List (String × String)) :
    Option Volume :=
  match vols.find? (fun v => v.name == name) with
  | none => none
  | some v => if req.all (fun p => v.labels.contains p) then some v else none

/-- Modelled from the spec: `k3dNetworkName` computes the cluster's network
identifier from the cluster name (the fixed per-cluster network naming
scheme; it lives outside `cli/registry.go`). -/
def k3dNetworkName (clusterName : String) : String :=
  "k3d-" ++ clusterName

/-- One successfully performed state-mutating runtime-adapter call. -/
inductive Effect where
  | startContainer (cid : String)
  | connectNetwork (cid netName : String) (aliases : List String)
  | disconnectNetwork (cid netName : String)
  | removeContainer (cid : String)
  | createVolume (name : String) (labels : List (String × String))
  | deleteVolume (name : String)
  | createContainer (name : String) (hostConfig : HostConfig) (envVars : List String)
      (netName : String) (aliases : List String)
deriving DecidableEq, Repr

/-- The runtime adapter's responses during one lifecycle call.  `…Fails`
fields say whether the corresponding adapter call reports an error;
`registryCid` is what `getRegistryContainer` finds (`""` when no registry
container matches the name-and-labels filter); `registryNetworks` is the
set of networks the registry container is attached to when the call
starts; `mountedVolName` is `getVolumeMountedIn`'s answer at
`defaultRegistryMountPath` (`none` models an error of that query, `some ""`
no volume); `volumes` are the volumes existing on the host. -/
structure Env where
  getRegistryFails : Bool
  registryCid : String
  startFails : Bool
  connectFails : Bool
  registryNetworks : List String
  disconnectFails : Bool
  networksQueryFails : Bool
  mountedVolName : Option String
  volumes : List Volume
  removeFails : Bool
  getVolumeFails : Bool
  deleteVolumeFails : Bool
  portParseFails : Bool
  mergeFails : Bool
  createVolumeFails : Bool
  createContainerFails : Bool
  newContainerId : String
  startNewFails : Bool
deriving DecidableEq, Repr

/-- Result of a lifecycle call: Go's returned value or error, or a
`log.Fatalf` process termination. -/
inductive Outcome (α : Type) where
  | ok (a : α)
  | err (msg : String)
  | fatal (msg : String)
deriving DecidableEq, Repr

/-- Whether the call returned an error to its caller. -/
def Outcome.isErr {α : Type} : Outcome α → Bool
  | .err _ => true
  | _ => false

/-! ## The teardown path (`disconnectRegistryFromNetwork`) -/

/-- Result of `disconnectRegistryFromNetwork`: the returned error (if any),
the mutations performed, and the log lines emitted. -/
structure TeardownResult where
  outcome : Outcome Unit
  effects : List Effect
  logs : List String
deriving DecidableEq, Repr

/-- `disconnectRegistryFromNetwork` disconnects the Registry from a
cluster's network; if the Registry container is not connected to any more
networks, it is removed, and its backing volume is deleted when it is
managed by k3d and the user did not ask to keep it.

`disconnectContainerFromNetwork` and `getContainerNetworks` live outside
`cli/registry.go`; following the spec, disconnecting a network that is not
attached is a success and a no-op, a genuine runtime failure is an error,
and `getContainerNetworks` reports the attachment list left after the
disconnect (`env.registryNetworks.erase netName`). -/
def disconnectRegistryFromNetwork (env : Env) (name : String)
    (keepRegistryVolume : Bool) : TeardownResult :=
  let netName := k3dNetworkName name
  if env.getRegistryFails then ⟨.err "runtime: could not list containers", [], []⟩
  else
    let cid := env.registryCid
    if cid = "" then ⟨.ok (), [], []⟩
    else
      let log0 := ["...Disconnecting Registry from the " ++ netName ++ " network"]
      if env.disconnectFails then ⟨.err "runtime: disconnect failed", [], log0⟩
      else
        let disconnEffects :=
          if netName ∈ env.registryNetworks then [Effect.disconnectNetwork cid netName]
          else []
        let networks := env.registryNetworks.erase netName
        if env.networksQueryFails then
          ⟨.err "runtime: could not get container networks", disconnEffects, log0⟩
        else if networks.isEmpty then
          let log1 := log0 ++ ["...Removing the Registry"]
          let volName := env.mountedVolName.getD ""
          let log2 :=
            if env.mountedVolName = none then
              log1 ++ ["...warning: could not detect registry volume"]
            else log1
          let removeEffects :=
            if env.removeFails then [] else [Effect.removeContainer cid]
          let log3 :=
            if env.removeFails then log2 ++ ["runtime: remove container failed"] else log2
          let effects := disconnEffects ++ removeEffects
          if volName ≠ "" then
            if env.getVolumeFails then
              ⟨.err (" Couldn't remove volume for registry " ++ defaultRegistryContainerName),
                effects, log3⟩
            else
              match getVolume env.volumes volName defaultRegistryVolumeLabels with
              | some _ =>
                if keepRegistryVolume then
                  ⟨.ok (), effects, log3 ++ ["...(keeping the Registry volume " ++ volName ++ ")"]⟩
                else
                  let log4 := log3 ++ ["...Removing the Registry volume " ++ volName]
                  if env.deleteVolumeFails then
                    ⟨.err (" Couldn't remove volume for registry " ++ defaultRegistryContainerName),
                      effects, log4⟩
                  else ⟨.ok (), effects ++ [Effect.deleteVolume volName], log4⟩
              | none => ⟨.ok (), effects, log3⟩
          else ⟨.ok (), effects, log3⟩
        else ⟨.ok (), disconnEffects, log0⟩

/-! ## The creation path (`createRegistry`) -/

/-- Result of `createRegistry`: the returned container id or error (or a
`log.Fatalf` termination), the mutations performed, and the log lines
emitted. -/
structure CreateResult where
  outcome : Outcome String
  effects : List Effect
  logs : List String
deriving DecidableEq, Repr

/-- The port spec handed to `CreatePublishedPorts`:
`0.0.0.0:<externalPort>:<internalPort>/tcp`. -/
def registryPortSpec (spec : ClusterSpec) : String :=
  "0.0.0.0:" ++ toString spec.RegistryPort ++ ":" ++ toString defaultRegistryPort ++ "/tcp"

/-- Labels put on a registry volume created by the creation path: the
dynamic name/port labels plus `defaultRegistryVolumeLabels`. -/
def registryVolumeLabels (spec : ClusterSpec) : List (String × String) :=
  [("registry-name", spec.RegistryName), ("registry-port", toString spec.RegistryPort)]
    ++ defaultRegistryVolumeLabels

/-- The local baseline host config built by the creation path before the
`mergo` merge: the published-port bindings, `Privileged`, and `Init`. -/
def baselineHostConfig (spec : ClusterSpec) : HostConfig :=
  { PortBindings := [registryPortSpec spec], Privileged := true, Init := some true,
    RestartPolicy := ⟨""⟩, Binds := [] }

/-- The environment injected into the registry container:
`REGISTRY_PROXY_REMOTEURL` when the pull-through cache is enabled. -/
def registryContainerEnv (spec : ClusterSpec) : List String :=
  if spec.RegistryCacheEnabled then
    ["REGISTRY_PROXY_REMOTEURL=https://" ++ defaultDockerRegistryHubAddress]
  else []

/-- Tail of the creation path shared by the volume branches: create the
container (under the fixed name, on the cluster network with the
registry-name alias) and start it; both failures abort with a wrapped
error. -/
def createRegistryFinish (env : Env) (spec : ClusterSpec) (netName : String)
    (hostConfig : HostConfig) (effects : List Effect) (logs : List String) : CreateResult :=
  let logs :=
    if spec.RegistryCacheEnabled then logs ++ ["Activating pull-through cache to Docker Hub"]
    else logs
  if env.createContainerFails then
    ⟨.err (" Couldn't create registry container " ++ defaultRegistryContainerName),
      effects, logs⟩
  else
    let effects := effects ++
      [Effect.createContainer defaultRegistryContainerName hostConfig
        (registryContainerEnv spec) netName [spec.RegistryName]]
    if env.startNewFails then
      ⟨.err (" Couldn't start container " ++ defaultRegistryContainerName),
        effects ,logs⟩
    else ⟨.ok env.newContainerId, effects ++ [Effect.startContainer env.newContainerId], logs⟩

/-- `createRegistry` creates a registry, or connects the k3d network to an
existing one.  The reuse branch starts the found container (best effort),
connects it to the cluster network under the registry-name alias, and
returns its id.  The create branch builds the published ports
(`log.Fatalf` on a parse failure), merges the caller's host config with
`mergo`, applies `AutoRestart`, resolves the backing volume, then creates
and starts the container.  (`getRegistryContainer`'s docker filter, the
container's image/labels and `copyToContainer` byte movement are plumbing
outside the claims; the container's env vars and host config are recorded
in the `createContainer` effect.) -/
def createRegistry (env : Env) (spec : ClusterSpec) : CreateResult :=
  let netName := k3dNetworkName spec.ClusterName
  if env.getRegistryFails then ⟨.err "runtime: could not list containers", [], []⟩
  else
    let cid := env.registryCid
    if cid ≠ "" then
      let log0 := ["Registry already present: ensuring that it is running and connecting it to the "
        ++ netName ++ " network..."]
      let startEffects := if env.startFails then [] else [Effect.startContainer cid]
      let log1 :=
        if env.startFails then
          log0 ++ ["warning: Failed to start registry container. Try starting it manually via docker start "
            ++ cid]
        else log0
      if env.connectFails then ⟨.err "runtime: connect failed", startEffects, log1⟩
      else ⟨.ok cid, startEffects ++ [Effect.connectNetwork cid netName [spec.RegistryName]], log1⟩
    else
      let log0 := ["Creating Registry as " ++ registryExternalAddress spec ++ "..."]
      if env.portParseFails then
        ⟨.fatal ("Error: failed to parse port specs " ++ registryPortSpec spec), [], log0⟩
      else if env.mergeFails then ⟨.err "runtime: merge failed", [], log0⟩
      else
        let hostConfig := mergoMergeHostConfig (baselineHostConfig spec) spec.HostConfig
        let hostConfig :=
          if spec.AutoRestart then
            { hostConfig with RestartPolicy := ⟨"unless-stopped"⟩ }
          else hostConfig
        if spec.RegistryVolume ≠ "" then
          let bound :=
            { hostConfig with Binds := [spec.RegistryVolume ++ ":" ++ defaultRegistryMountPath] }
          if env.getVolumeFails then
            ⟨.err (" Couldn't check if volume " ++ spec.RegistryVolume ++ " exists"), [], log0⟩
          else
            match getVolume env.volumes spec.RegistryVolume [] with
            | some _ =>
              createRegistryFinish env spec netName bound []
                (log0 ++ ["Using existing volume " ++ spec.RegistryVolume ++ " for the Registry"])
            | none =>
              if env.createVolumeFails then
                ⟨.err (" Couldn't create volume " ++ spec.RegistryVolume ++ " for registry"),
                  [], log0 ++ ["Creating Registry volume " ++ spec.RegistryVolume ++ "..."]⟩
              else
                createRegistryFinish env spec netName bound
                  [Effect.createVolume spec.RegistryVolume (registryVolumeLabels spec)]
                  (log0 ++ ["Creating Registry volume " ++ spec.RegistryVolume ++ "..."])
        else createRegistryFinish env spec netName hostConfig [] log0

/-- Specification-side abbreviation: the teardown's full-removal branch
deletes the backing volume exactly when a volume was detected at the mount
path, its ownership re-check succeeds and finds the labels, the user did not
ask to keep it, and the runtime delete call itself does not fail. -/
def teardownDeletesVolume (env : Env) (keepRegistryVolume : Bool) : Bool :=
  (env.mountedVolName.getD "" != "") && !env.getVolumeFails
    && (getVolume env.volumes (env.mountedVolName.getD "")
          defaultRegistryVolumeLabels).isSome
    && !keepRegistryVolume && !env.deleteVolumeFails

/-! ## Concrete inputs used by witnesses and counterexamples -/

/-- A quiet runtime: no registry present, no failures. -/
def envDefault : Env :=
  { getRegistryFails := false, registryCid := "", startFails := false,
    connectFails := false, registryNetworks := [], disconnectFails := false,
    networksQueryFails := false, mountedVolName := some "", volumes := [],
    removeFails := false, getVolumeFails := false, deleteVolumeFails := false,
    portParseFails := false, mergeFails := false, createVolumeFails := false,
    createContainerFails := false, newContainerId := "cafe01", startNewFails := false }

/-- A plain cluster spec with the registry enabled. -/
def specDefault : ClusterSpec :=
  { ClusterName := "c1", RegistryName := "registry.local", RegistryPort := 5000,
    RegistriesFile := "base.yaml", RegistryEnabled := true,
    RegistryCacheEnabled := false, RegistryVolume := "", AutoRestart := false,
    HostConfig := HostConfig.zero }

/-- Spec whose external address `reg:7000` collides with a base entry. -/
def specClash : ClusterSpec :=
  { specDefault with RegistryName := "reg", RegistryPort := 7000 }

/-- Base document already holding a mirror entry for `reg:7000`. -/
def baseClash : Registry := ⟨[("reg:7000", ⟨["http://old.example"]⟩)], [], []⟩

/-- Spec with registry and pull-through cache enabled. -/
def specCache : ClusterSpec := { specDefault with RegistryCacheEnabled := true }

/-- Base document already holding a mirror entry for `docker.io`. -/
def baseHub : Registry := ⟨[("docker.io", ⟨["http://oldhub.example"]⟩)], [], []⟩

/-- Base document with an unrelated mirror entry. -/
def baseQuay : Registry := ⟨[("quay.io", ⟨["http://mirror.local"]⟩)], [], []⟩

/-- Runtime with a registry container attached to the one network `k3d-c1`. -/
def envOneNet : Env :=
  { envDefault with registryCid := "abc", registryNetworks := ["k3d-c1"] }

/-- Runtime with a registry container attached to two cluster networks. -/
def envTwoNets : Env :=
  { envDefault with registryCid := "abc", registryNetworks := ["k3d-c1", "k3d-c2"] }

/-- Runtime with a registry container that is attached to no network at all
(for example because an earlier teardown's container removal failed). -/
def envStale : Env := { envDefault with registryCid := "abc" }

/-- Runtime where the query for the registry's remaining networks fails. -/
def envNetFail : Env := { envOneNet with networksQueryFails := true }

/-- Runtime where the container-removal call fails. -/
def envRemoveFail : Env := { envOneNet with removeFails := true }

/-- Runtime where teardown will find a k3d-owned volume at the registry
mount path. -/
def envOwnedVol : Env :=
  { envOneNet with
    mountedVolName := some "registry-vol",
    volumes := [⟨"registry-vol",
      [("registry-name", "registry.local"), ("registry-port", "5000"),
        ("app", "k3d"), ("component", "registry"), ("managed", "true")]⟩] }

/-- Runtime where teardown finds a volume at the registry mount path that
does not carry the k3d ownership labels. -/
def envForeignVol : Env :=
  { envOneNet with
    mountedVolName := some "someone-elses-data",
    volumes := [⟨"someone-elses-data", [("app", "other")]⟩] }

/-- Runtime where the registry port spec fails to parse. -/
def envPortFail : Env := { envDefault with portParseFails := true }

/-- A host-config override that sets its own port bindings. -/
def hostOverride : HostConfig :=
  { PortBindings := ["0.0.0.0:9999:5000/tcp"], Privileged := false, Init := none,
    RestartPolicy := ⟨""⟩, Binds := [] }

/-- Spec whose caller-supplied host config conflicts with the baseline. -/
def specOverride : ClusterSpec := { specDefault with HostConfig := hostOverride }

/-! # Theorems -/

/-! ## Lookup lemmas for the mirrors association list -/

theorem lookup_insertMirror_self (l : List (String × Mirror)) (k : String) (m : Mirror) :
    List.lookup k (insertMirror l k m) = some m := by
  induction l with
  | nil => simp [insertMirror, List.lookup]
  | cons p rest ih =>
    obtain ⟨k', m'⟩ := p
    by_cases h : k' = k
    · simp [insertMirror, h, List.lookup]
    · simp only [insertMirror, if_neg h, List.lookup]
      have hb : (k == k') = false := by
        simp [beq_iff_eq]; exact fun hk => h hk.symm
      simp [hb, ih]

theorem lookup_insertMirror_ne (l : List (String × Mirror)) (k k' : String) (m : Mirror)
    (h : k' ≠ k) : List.lookup k' (insertMirror l k m) = List.lookup k' l := by
  induction l with
  | nil =>
    have hb : (k' == k) = false := by simp [beq_iff_eq, h]
    simp [insertMirror, List.lookup, hb]
  | cons p rest ih =>
    obtain ⟨ka, ma⟩ := p
    by_cases hk : ka = k
    · subst hk
      have hb : (k' == ka) = false := by simp [beq_iff_eq, h]
      simp [insertMirror, List.lookup, hb]
    · simp only [insertMirror, if_neg hk, List.lookup]
      by_cases hk2 : k' = ka
      · simp [hk2]
      · have hb : (k' == ka) = false := by simp [beq_iff_eq, hk2]
        simp [hb, ih]

/-! ## C10 — emitter with the registry disabled is a pass-through -/

/-- **C10**: when the registry is not enabled, `writeRegistriesConfig` emits
the base document (or the empty document when no base file is named) with no
mirror entry added, whatever the pull-through-cache flag says. -/
theorem emitter_disabled_is_passthrough (spec : ClusterSpec) (base : Registry)
    (h : spec.RegistryEnabled = false) :
    writeRegistriesConfig spec base =
      (if spec.RegistriesFile.length > 0 then base else ⟨[], [], []⟩) := by
  simp [writeRegistriesConfig, h]

/-- Witness for C10: registry disabled but cache flag set, base named. -/
theorem emitter_disabled_is_passthrough_witness :
    writeRegistriesConfig
        { specCache with RegistryEnabled := false } baseQuay =
      (if ({ specCache with RegistryEnabled := false } : ClusterSpec).RegistriesFile.length > 0
        then baseQuay else ⟨[], [], []⟩) :=
  emitter_disabled_is_passthrough { specCache with RegistryEnabled := false } baseQuay rfl

/-! ## C2 — the emitter preserves base entries and adds the registry's own -/

/-- **C2, counterexample**: the claim "every base entry for a host `X`
survives unchanged" fails when `X` collides with a key the emitter writes.
With registry `reg` on port 7000, a base entry for `reg:7000` is
overwritten; and with the cache flag set, a base entry for `docker.io` is
overwritten as well. -/
theorem emitter_preserves_base_counterexample :
    List.lookup "reg:7000" (writeRegistriesConfig specClash baseClash).Mirrors
        = some ⟨["http://reg:5000"]⟩
    ∧ List.lookup "reg:7000" baseClash.Mirrors = some ⟨["http://old.example"]⟩
    ∧ List.lookup "reg:7000" (writeRegistriesConfig specClash baseClash).Mirrors
        ≠ some ⟨["http://old.example"]⟩
    ∧ List.lookup "docker.io" (writeRegistriesConfig specCache baseHub).Mirrors
        ≠ some ⟨["http://oldhub.example"]⟩ := by
  refine ⟨by decide, by decide, by decide, by decide⟩

/-- **C2, amended**: for every base document with a mirror entry for a host
`X`, running the emitter with the registry enabled, name `R` and external
port `P` keeps the `X` entry unchanged and adds an entry keyed `R:P` whose
endpoint list is exactly `["http://R:5000"]` (5000 the fixed internal
port) — provided `X` is not `R:P` itself and, when the pull-through-cache
flag is set, not `docker.io`, since the emitter overwrites those two keys. -/
theorem emitter_preserves_base_and_adds_registry (spec : ClusterSpec) (base : Registry)
    (X : String) (mX : Mirror)
    (hfile : spec.RegistriesFile.length > 0)
    (hen : spec.RegistryEnabled = true)
    (hX : List.lookup X base.Mirrors = some mX)
    (hne : X ≠ registryExternalAddress spec)
    (hcache : spec.RegistryCacheEnabled = true → X ≠ defaultDockerHubAddress) :
    List.lookup X (writeRegistriesConfig spec base).Mirrors = some mX
    ∧ List.lookup (registryExternalAddress spec) (writeRegistriesConfig spec base).Mirrors
        = some ⟨["http://" ++ registryInternalAddress spec]⟩
    ∧ toString defaultRegistryPort = "5000" := by
  have hfile' : (if spec.RegistriesFile.length > 0 then base else (⟨[], [], []⟩ : Registry)) = base :=
    if_pos hfile
  by_cases hc : spec.RegistryCacheEnabled
  · refine ⟨?_, ?_, rfl⟩
    · simp only [writeRegistriesConfig, hen, if_true, hc, hfile']
      rw [lookup_insertMirror_ne _ _ _ _ (hcache hc),
        lookup_insertMirror_ne _ _ _ _ hne, hX]
    · simp only [writeRegistriesConfig, hen, if_true, hc, hfile']
      by_cases hd : registryExternalAddress spec = defaultDockerHubAddress
      · rw [hd, lookup_insertMirror_self]
      · rw [lookup_insertMirror_ne _ _ _ _ hd, lookup_insertMirror_self]
  · have hc' : spec.RegistryCacheEnabled = false := by simpa using hc
    refine ⟨?_, ?_, rfl⟩
    · simp only [writeRegistriesConfig, hen, if_true, hfile']
      simp only [hc', Bool.false_eq_true, if_false]
      rw [lookup_insertMirror_ne _ _ _ _ hne, hX]
    · simp only [writeRegistriesConfig, hen, if_true, hfile']
      simp only [hc', Bool.false_eq_true, if_false]
      rw [lookup_insertMirror_self]

/-- Witness for the amended C2 at a concrete base and spec. -/
theorem emitter_preserves_base_and_adds_registry_witness :
    List.lookup "quay.io" (writeRegistriesConfig specDefault baseQuay).Mirrors
        = some ⟨["http://mirror.local"]⟩
    ∧ List.lookup (registryExternalAddress specDefault)
        (writeRegistriesConfig specDefault baseQuay).Mirrors
        = some ⟨["http://" ++ registryInternalAddress specDefault]⟩
    ∧ toString defaultRegistryPort = "5000" :=
  emitter_preserves_base_and_adds_registry specDefault baseQuay "quay.io"
    ⟨["http://mirror.local"]⟩ (by decide) rfl (by decide) (by decide)
    (fun h => absurd h (by decide))

/-! ## C9 — the cache flag adds exactly the docker.io mirror entry -/

/-- **C9**: with registry and pull-through cache both enabled, the emitted
document is exactly the cache-disabled document plus one extra mirror entry:
it is keyed by the fixed public-hub hostname `docker.io` and its endpoint
list is the registry's own internal endpoint, the same value the registry's
own `R:P` entry carries. -/
theorem emitter_cache_adds_dockerhub (spec : ClusterSpec) (base : Registry)
    (hen : spec.RegistryEnabled = true) (hc : spec.RegistryCacheEnabled = true) :
    writeRegistriesConfig spec base
      = { writeRegistriesConfig { spec with RegistryCacheEnabled := false } base with
          Mirrors := insertMirror
            (writeRegistriesConfig { spec with RegistryCacheEnabled := false } base).Mirrors
            defaultDockerHubAddress ⟨["http://" ++ registryInternalAddress spec]⟩ }
    ∧ List.lookup defaultDockerHubAddress (writeRegistriesConfig spec base).Mirrors
        = some ⟨["http://" ++ registryInternalAddress spec]⟩
    ∧ List.lookup (registryExternalAddress spec)
        (writeRegistriesConfig { spec with RegistryCacheEnabled := false } base).Mirrors
        = some ⟨["http://" ++ registryInternalAddress spec]⟩ := by
  refine ⟨?_, ?_, ?_⟩
  · simp [writeRegistriesConfig, hen, hc, registryExternalAddress, registryInternalAddress]
  · simp only [writeRegistriesConfig, hen, if_true, hc]
    rw [lookup_insertMirror_self]
  · simp only [writeRegistriesConfig, hen, if_true, Bool.false_eq_true, if_false,
      registryExternalAddress, registryInternalAddress]
    rw [lookup_insertMirror_self]

/-- Witness for C9 at a concrete spec and base. -/
theorem emitter_cache_adds_dockerhub_witness :
    writeRegistriesConfig specCache baseQuay
      = { writeRegistriesConfig { specCache with RegistryCacheEnabled := false } baseQuay with
          Mirrors := insertMirror
            (writeRegistriesConfig { specCache with RegistryCacheEnabled := false } baseQuay).Mirrors
            defaultDockerHubAddress ⟨["http://" ++ registryInternalAddress specCache]⟩ }
    ∧ List.lookup defaultDockerHubAddress (writeRegistriesConfig specCache baseQuay).Mirrors
        = some ⟨["http://" ++ registryInternalAddress specCache]⟩
    ∧ List.lookup (registryExternalAddress specCache)
        (writeRegistriesConfig { specCache with RegistryCacheEnabled := false } baseQuay).Mirrors
        = some ⟨["http://" ++ registryInternalAddress specCache]⟩ :=
  emitter_cache_adds_dockerhub specCache baseQuay rfl rfl

/-! ## Teardown control-flow lemmas (shared) -/

/-- When at least one network remains attached after the disconnect, the
teardown stops after the disconnect: success, and no further mutation. -/
theorem teardown_run_networks_remain (env : Env) (name : String) (kv : Bool)
    (hok : env.getRegistryFails = false) (hcid : env.registryCid ≠ "")
    (hd : env.disconnectFails = false) (hq : env.networksQueryFails = false)
    (hnet : env.registryNetworks.erase (k3dNetworkName name) ≠ []) :
    disconnectRegistryFromNetwork env name kv =
      ⟨.ok (),
        if k3dNetworkName name ∈ env.registryNetworks
        then [Effect.disconnectNetwork env.registryCid (k3dNetworkName name)]
        else [],
        ["...Disconnecting Registry from the " ++ k3dNetworkName name ++ " network"]⟩ := by
  have hne : (env.registryNetworks.erase (k3dNetworkName name)).isEmpty = false := by
    rw [List.isEmpty_eq_false]
    exact hnet
  unfold disconnectRegistryFromNetwork
  simp [hok, hd, hq, hne, if_neg hcid]

/-- When no network remains attached after the disconnect, the teardown's
effects are: the disconnect, the container removal (unless the runtime's
remove call failed), and the volume deletion exactly when
`teardownDeletesVolume` says so. -/
theorem teardown_run_no_networks_effects (env : Env) (name : String) (kv : Bool)
    (hok : env.getRegistryFails = false) (hcid : env.registryCid ≠ "")
    (hd : env.disconnectFails = false) (hq : env.networksQueryFails = false)
    (hnet : env.registryNetworks.erase (k3dNetworkName name) = []) :
    (disconnectRegistryFromNetwork env name kv).effects =
      (if k3dNetworkName name ∈ env.registryNetworks
       then [Effect.disconnectNetwork env.registryCid (k3dNetworkName name)]
       else [])
      ++ (if env.removeFails then [] else [Effect.removeContainer env.registryCid])
      ++ (if teardownDeletesVolume env kv
          then [Effect.deleteVolume (env.mountedVolName.getD "")] else []) := by
  unfold disconnectRegistryFromNetwork
  simp only [hok, hd, hq, Bool.false_eq_true, if_false, if_neg hcid, hnet,
    List.isEmpty_nil, if_true]
  cases hmv : env.mountedVolName with
  | none => simp [teardownDeletesVolume, hmv]
  | some v =>
    by_cases hv : v = ""
    · simp [teardownDeletesVolume, hmv, hv]
    · by_cases hgf : env.getVolumeFails
      · simp [teardownDeletesVolume, hmv, hv, hgf]
      · cases hgv : getVolume env.volumes v defaultRegistryVolumeLabels with
        | none => simp [teardownDeletesVolume, hmv, hv, hgf, hgv]
        | some vol =>
          by_cases hk : kv
          · simp [teardownDeletesVolume, hmv, hv, hgf, hgv, hk]
          · by_cases hdf : env.deleteVolumeFails
            · simp [teardownDeletesVolume, hmv, hv, hgf, hgv, hk, hdf]
            · simp [teardownDeletesVolume, hmv, hv, hgf, hgv, hk, hdf]

/-! ## C1 — reference-counting teardown invariant -/

/-- **C1**: on a teardown call that finds a registry (and whose disconnect
and network-query runtime calls work), the registry container removal is
issued if and only if the remaining network-attachment list after
disconnecting the calling cluster's network is empty; when networks remain,
neither a container removal nor any volume deletion happens. -/
theorem teardown_removes_iff_no_networks_remain
    (env : Env) (name : String) (keepRegistryVolume : Bool)
    (hok : env.getRegistryFails = false) (hcid : env.registryCid ≠ "")
    (hd : env.disconnectFails = false) (hq : env.networksQueryFails = false)
    (hr : env.removeFails = false) :
    (Effect.removeContainer env.registryCid
        ∈ (disconnectRegistryFromNetwork env name keepRegistryVolume).effects
      ↔ env.registryNetworks.erase (k3dNetworkName name) = [])
    ∧ (env.registryNetworks.erase (k3dNetworkName name) ≠ [] →
        (∀ c, Effect.removeContainer c
            ∉ (disconnectRegistryFromNetwork env name keepRegistryVolume).effects)
        ∧ ∀ v, Effect.deleteVolume v
            ∉ (disconnectRegistryFromNetwork env name keepRegistryVolume).effects) := by
  by_cases hnet : env.registryNetworks.erase (k3dNetworkName name) = []
  · rw [teardown_run_no_networks_effects env name keepRegistryVolume hok hcid hd hq hnet]
    constructor
    · constructor
      · intro _; exact hnet
      · intro _
        simp [hr]
    · intro h; exact absurd hnet h
  · rw [teardown_run_networks_remain env name keepRegistryVolume hok hcid hd hq hnet]
    constructor
    · constructor
      · intro hmem
        exfalso
        by_cases hm : k3dNetworkName name ∈ env.registryNetworks <;> simp [hm] at hmem
      · intro h; exact absurd h hnet
    · intro _
      constructor
      · intro c
        by_cases hm : k3dNetworkName name ∈ env.registryNetworks <;> simp [hm]
      · intro v
        by_cases hm : k3dNetworkName name ∈ env.registryNetworks <;> simp [hm]

/-- Witness for C1 at a registry attached to two networks, one removed. -/
theorem teardown_removes_iff_no_networks_remain_witness :
    (Effect.removeContainer envTwoNets.registryCid
        ∈ (disconnectRegistryFromNetwork envTwoNets "c1" false).effects
      ↔ envTwoNets.registryNetworks.erase (k3dNetworkName "c1") = [])
    ∧ (envTwoNets.registryNetworks.erase (k3dNetworkName "c1") ≠ [] →
        (∀ c, Effect.removeContainer c
            ∉ (disconnectRegistryFromNetwork envTwoNets "c1" false).effects)
        ∧ ∀ v, Effect.deleteVolume v
            ∉ (disconnectRegistryFromNetwork envTwoNets "c1" false).effects) :=
  teardown_removes_iff_no_networks_remain envTwoNets "c1" false rfl (by decide) rfl rfl rfl

/-! ## C4 — idempotent detach -/

/-- **C4, counterexample**: the claim "teardown for a cluster never attached
to the registry performs no mutation" fails when the registry container
exists but is attached to no network at all: the disconnect is a no-op, the
remaining-networks list is already empty, and the removal branch fires. -/
theorem release_noop_counterexample :
    (disconnectRegistryFromNetwork envStale "never-attached" false).outcome = .ok ()
    ∧ (disconnectRegistryFromNetwork envStale "never-attached" false).effects
        = [Effect.removeContainer "abc"] := by
  constructor
  · rfl
  · rfl

/-- **C4, amended**: teardown succeeds with no mutation when no registry
container exists; and when a registry exists but the calling cluster's
network is not attached to it, teardown succeeds with no mutation provided
at least one network remains attached (when the attachment list is already
empty, the removal branch still fires). -/
theorem release_noop (env : Env) (name : String) (kv : Bool) :
    (env.getRegistryFails = false → env.registryCid = "" →
      disconnectRegistryFromNetwork env name kv = ⟨.ok (), [], []⟩)
    ∧ (env.getRegistryFails = false → env.registryCid ≠ "" →
        env.disconnectFails = false → env.networksQueryFails = false →
        k3dNetworkName name ∉ env.registryNetworks → env.registryNetworks ≠ [] →
        (disconnectRegistryFromNetwork env name kv).outcome = .ok ()
        ∧ (disconnectRegistryFromNetwork env name kv).effects = []) := by
  constructor
  · intro hok hcid
    unfold disconnectRegistryFromNetwork
    simp [hok, hcid]
  · intro hok hcid hd hq hmem hnonempty
    have herase : env.registryNetworks.erase (k3dNetworkName name) = env.registryNetworks :=
      List.erase_of_not_mem hmem
    have hnet : env.registryNetworks.erase (k3dNetworkName name) ≠ [] := by
      rw [herase]; exact hnonempty
    rw [teardown_run_networks_remain env name kv hok hcid hd hq hnet]
    simp [hmem]

/-- Witness for the amended C4: an absent registry, and a registry attached
only to another cluster's network. -/
theorem release_noop_witness :
    ((envDefault.getRegistryFails = false → envDefault.registryCid = "" →
      disconnectRegistryFromNetwork envDefault "c9" true = ⟨.ok (), [], []⟩)
    ∧ (envDefault.getRegistryFails = false → envDefault.registryCid ≠ "" →
        envDefault.disconnectFails = false → envDefault.networksQueryFails = false →
        k3dNetworkName "c9" ∉ envDefault.registryNetworks → envDefault.registryNetworks ≠ [] →
        (disconnectRegistryFromNetwork envDefault "c9" true).outcome = .ok ()
        ∧ (disconnectRegistryFromNetwork envDefault "c9" true).effects = []))
    ∧ ((envOneNet.getRegistryFails = false → envOneNet.registryCid = "" →
      disconnectRegistryFromNetwork envOneNet "c9" true = ⟨.ok (), [], []⟩)
    ∧ (envOneNet.getRegistryFails = false → envOneNet.registryCid ≠ "" →
        envOneNet.disconnectFails = false → envOneNet.networksQueryFails = false →
        k3dNetworkName "c9" ∉ envOneNet.registryNetworks → envOneNet.registryNetworks ≠ [] →
        (disconnectRegistryFromNetwork envOneNet "c9" true).outcome = .ok ()
        ∧ (disconnectRegistryFromNetwork envOneNet "c9" true).effects = [])) :=
  ⟨release_noop envDefault "c9" true, release_noop envOneNet "c9" true⟩

/-! ## C5 — volume ownership guard -/

/-- **C5**: a volume deletion can only be issued by the teardown when the
ownership re-check (`getVolume` filtered by the complete
`defaultRegistryVolumeLabels` set) found the volume with all labels and
`keepRegistryVolume` is false; contrapositively, a volume at the mount path
lacking any ownership label is never deleted, for both values of
`keepRegistryVolume`. -/
theorem teardown_volume_ownership_guard (env : Env) (name : String) (kv : Bool) (w : String)
    (hdel : Effect.deleteVolume w ∈ (disconnectRegistryFromNetwork env name kv).effects) :
    (getVolume env.volumes w defaultRegistryVolumeLabels).isSome = true ∧ kv = false := by
  unfold disconnectRegistryFromNetwork at hdel
  by_cases hok : env.getRegistryFails
  · simp [hok] at hdel
  · simp only [hok, Bool.false_eq_true, if_false] at hdel
    by_cases hcid : env.registryCid = ""
    · simp [hcid] at hdel
    · simp only [if_neg hcid] at hdel
      by_cases hd : env.disconnectFails
      · simp [hd] at hdel
      · simp only [hd, Bool.false_eq_true, if_false] at hdel
        by_cases hq : env.networksQueryFails
        · by_cases hm : k3dNetworkName name ∈ env.registryNetworks <;>
            simp [hq, hm] at hdel
        · simp only [hq, Bool.false_eq_true, if_false] at hdel
          by_cases hempty : (env.registryNetworks.erase (k3dNetworkName name)).isEmpty
          · simp only [hempty, if_true] at hdel
            cases hmv : env.mountedVolName with
            | none =>
              by_cases hm : k3dNetworkName name ∈ env.registryNetworks <;>
                by_cases hr : env.removeFails <;>
                  simp [hmv, hm, hr] at hdel
            | some v =>
              by_cases hv : v = ""
              · by_cases hm : k3dNetworkName name ∈ env.registryNetworks <;>
                  by_cases hr : env.removeFails <;>
                    simp [hmv, hv, hm, hr] at hdel
              · by_cases hgf : env.getVolumeFails
                · by_cases hm : k3dNetworkName name ∈ env.registryNetworks <;>
                    by_cases hr : env.removeFails <;>
                      simp [hmv, hv, hgf, hm, hr] at hdel
                · cases hgv : getVolume env.volumes v defaultRegistryVolumeLabels with
                  | none =>
                    by_cases hm : k3dNetworkName name ∈ env.registryNetworks <;>
                      by_cases hr : env.removeFails <;>
                        simp [hmv, hv, hgf, hgv, hm, hr] at hdel
                  | some vol =>
                    by_cases hk : kv
                    · by_cases hm : k3dNetworkName name ∈ env.registryNetworks <;>
                        by_cases hr : env.removeFails <;>
                          simp [hmv, hv, hgf, hgv, hk, hm, hr] at hdel
                    · by_cases hdf : env.deleteVolumeFails
                      · by_cases hm : k3dNetworkName name ∈ env.registryNetworks <;>
                          by_cases hr : env.removeFails <;>
                            simp [hmv, hv, hgf, hgv, hk, hdf, hm, hr] at hdel
                      · have hw : w = v := by
                          by_cases hm : k3dNetworkName name ∈ env.registryNetworks <;>
                            by_cases hr : env.removeFails <;>
                              simp [hmv, hv, hgf, hgv, hk, hdf, hm, hr] at hdel <;>
                                exact hdel
                        subst hw
                        rw [Bool.not_eq_true] at hk
                        exact ⟨by rw [hgv]; rfl, hk⟩
          · by_cases hm : k3dNetworkName name ∈ env.registryNetworks <;>
              simp [hempty, hm] at hdel

/-- Witness for C5: a k3d-owned volume deleted by a final teardown. -/
theorem teardown_volume_ownership_guard_witness :
    (getVolume envOwnedVol.volumes "registry-vol" defaultRegistryVolumeLabels).isSome = true
    ∧ false = false :=
  teardown_volume_ownership_guard envOwnedVol "c1" false "registry-vol" (by decide)

/-! ## C7 — error discipline of the teardown sub-steps -/

/-- **C7, counterexample**: the claim that a failing remaining-networks query
(`getContainerNetworks`) is logged as a warning and the teardown continues is
false: the code returns the error, aborting the teardown before the removal
branch can run. -/
theorem teardown_networks_query_counterexample :
    (disconnectRegistryFromNetwork envNetFail "c1" false).outcome
        = .err "runtime: could not get container networks"
    ∧ (disconnectRegistryFromNetwork envNetFail "c1" false).outcome.isErr = true
    ∧ (disconnectRegistryFromNetwork envNetFail "c1" false).effects
        = [Effect.disconnectNetwork "abc" "k3d-c1"] := by
  refine ⟨rfl, rfl, rfl⟩

/-- **C7, amended**: during teardown, a failure of the remaining-networks
query aborts the operation with the error; the best-effort, log-and-continue
treatment applies to the container-removal and volume-detection sub-steps:
when the remove call fails the teardown still succeeds and only logs the
failure. -/
theorem teardown_error_discipline (env : Env) (name : String) (kv : Bool)
    (hok : env.getRegistryFails = false) (hcid : env.registryCid ≠ "")
    (hd : env.disconnectFails = false) :
    (env.networksQueryFails = true →
      (disconnectRegistryFromNetwork env name kv).outcome
        = .err "runtime: could not get container networks")
    ∧ (env.networksQueryFails = false →
        env.registryNetworks.erase (k3dNetworkName name) = [] →
        env.mountedVolName = some "" →
        (disconnectRegistryFromNetwork env name kv).outcome = .ok ()
        ∧ (disconnectRegistryFromNetwork env name kv).logs
            = ["...Disconnecting Registry from the " ++ k3dNetworkName name ++ " network",
                "...Removing the Registry"]
              ++ (if env.removeFails then ["runtime: remove container failed"] else [])) := by
  constructor
  · intro hq
    unfold disconnectRegistryFromNetwork
    simp [hok, hd, hq, if_neg hcid]
  · intro hq hnet hmv
    unfold disconnectRegistryFromNetwork
    simp only [hok, hd, hq, Bool.false_eq_true, if_false, if_neg hcid, hnet,
      List.isEmpty_nil, if_true, hmv]
    by_cases hr : env.removeFails <;> simp [hr]

/-- Witness for the amended C7: the aborting query failure, and a remove
failure that is only logged. -/
theorem teardown_error_discipline_witness :
    ((envNetFail.networksQueryFails = true →
      (disconnectRegistryFromNetwork envNetFail "c1" false).outcome
        = .err "runtime: could not get container networks")
    ∧ (envNetFail.networksQueryFails = false →
        envNetFail.registryNetworks.erase (k3dNetworkName "c1") = [] →
        envNetFail.mountedVolName = some "" →
        (disconnectRegistryFromNetwork envNetFail "c1" false).outcome = .ok ()
        ∧ (disconnectRegistryFromNetwork envNetFail "c1" false).logs
            = ["...Disconnecting Registry from the " ++ k3dNetworkName "c1" ++ " network",
                "...Removing the Registry"]
              ++ (if envNetFail.removeFails then ["runtime: remove container failed"] else [])))
    ∧ ((envRemoveFail.networksQueryFails = true →
      (disconnectRegistryFromNetwork envRemoveFail "c1" false).outcome
        = .err "runtime: could not get container networks")
    ∧ (envRemoveFail.networksQueryFails = false →
        envRemoveFail.registryNetworks.erase (k3dNetworkName "c1") = [] →
        envRemoveFail.mountedVolName = some "" →
        (disconnectRegistryFromNetwork envRemoveFail "c1" false).outcome = .ok ()
        ∧ (disconnectRegistryFromNetwork envRemoveFail "c1" false).logs
            = ["...Disconnecting Registry from the " ++ k3dNetworkName "c1" ++ " network",
                "...Removing the Registry"]
              ++ (if envRemoveFail.removeFails then ["runtime: remove container failed"] else []))) :=
  ⟨teardown_error_discipline envNetFail "c1" false rfl (by decide) rfl,
    teardown_error_discipline envRemoveFail "c1" false rfl (by decide) rfl⟩

/-! ## C3 — reuse branch of `createRegistry` -/

/-- **C3**: when a registry container already exists, `createRegistry`
performs no container or volume creation: its only mutations are a
best-effort start of the existing container and the connect of the calling
cluster's network under the registry-name alias, it returns the existing
container's id, and a failed start only adds a warning log without failing
the call. -/
theorem create_registry_reuses_existing (env : Env) (spec : ClusterSpec)
    (hok : env.getRegistryFails = false)
    (hcid : env.registryCid ≠ "")
    (hconn : env.connectFails = false) :
    (createRegistry env spec).outcome = .ok env.registryCid
    ∧ (createRegistry env spec).effects =
        (if env.startFails then [] else [Effect.startContainer env.registryCid])
        ++ [Effect.connectNetwork env.registryCid (k3dNetworkName spec.ClusterName)
            [spec.RegistryName]]
    ∧ (env.startFails = true →
        "warning: Failed to start registry container. Try starting it manually via docker start "
            ++ env.registryCid ∈ (createRegistry env spec).logs) := by
  unfold createRegistry
  simp only [hok, hconn, Bool.false_eq_true, if_false, if_pos hcid, ite_not]
  by_cases hs : env.startFails <;> simp [hs]

/-- Witness for C3, with a failing start of the existing container. -/
theorem create_registry_reuses_existing_witness :
    (createRegistry { envOneNet with startFails := true } specDefault).outcome
        = .ok ({ envOneNet with startFails := true } : Env).registryCid
    ∧ (createRegistry { envOneNet with startFails := true } specDefault).effects =
        (if ({ envOneNet with startFails := true } : Env).startFails then []
          else [Effect.startContainer ({ envOneNet with startFails := true } : Env).registryCid])
        ++ [Effect.connectNetwork ({ envOneNet with startFails := true } : Env).registryCid
            (k3dNetworkName specDefault.ClusterName) [specDefault.RegistryName]]
    ∧ (({ envOneNet with startFails := true } : Env).startFails = true →
        "warning: Failed to start registry container. Try starting it manually via docker start "
            ++ ({ envOneNet with startFails := true } : Env).registryCid
          ∈ (createRegistry { envOneNet with startFails := true } specDefault).logs) :=
  create_registry_reuses_existing { envOneNet with startFails := true } specDefault
    rfl (by decide) rfl

/-! ## C6 — fatal construction failures on the create path -/

/-- **C6, counterexample**: the claim that a port specification failing to
parse makes `createRegistry` return a wrapped error to its caller is false:
the code calls `log.Fatalf`, terminating the process instead of returning an
error. -/
theorem create_fatal_port_counterexample :
    (createRegistry envPortFail specDefault).outcome
        = .fatal ("Error: failed to parse port specs " ++ registryPortSpec specDefault)
    ∧ (createRegistry envPortFail specDefault).outcome.isErr = false := by
  refine ⟨rfl, rfl⟩

/-- **C6, amended**: every fatal construction step on the create path aborts
the whole call: a port spec that fails to parse terminates the process via
`log.Fatalf` (it does not return to the caller); a failed host-config merge
returns the underlying error unwrapped; and a failed volume creation,
container creation, or container start returns a wrapped error naming the
failed sub-step. -/
theorem create_construction_failures_abort (env : Env) (spec : ClusterSpec)
    (hok : env.getRegistryFails = false) (hcid : env.registryCid = "") :
    (env.portParseFails = true →
      (createRegistry env spec).outcome
        = .fatal ("Error: failed to parse port specs " ++ registryPortSpec spec))
    ∧ (env.portParseFails = false → env.mergeFails = true →
        (createRegistry env spec).outcome = .err "runtime: merge failed")
    ∧ (env.portParseFails = false → env.mergeFails = false →
        spec.RegistryVolume ≠ "" → env.getVolumeFails = false →
        getVolume env.volumes spec.RegistryVolume [] = none →
        env.createVolumeFails = true →
        (createRegistry env spec).outcome
          = .err (" Couldn't create volume " ++ spec.RegistryVolume ++ " for registry"))
    ∧ (env.portParseFails = false → env.mergeFails = false →
        spec.RegistryVolume = "" → env.createContainerFails = true →
        (createRegistry env spec).outcome
          = .err (" Couldn't create registry container " ++ defaultRegistryContainerName))
    ∧ (env.portParseFails = false → env.mergeFails = false →
        spec.RegistryVolume = "" → env.createContainerFails = false →
        env.startNewFails = true →
        (createRegistry env spec).outcome
          = .err (" Couldn't start container " ++ defaultRegistryContainerName)) := by
  refine ⟨?_, ?_, ?_, ?_, ?_⟩
  · intro hp
    unfold createRegistry
    simp [hok, hcid, hp]
  · intro hp hm
    unfold createRegistry
    simp [hok, hcid, hp, hm]
  · intro hp hm hvol hgf hgv hcv
    unfold createRegistry
    simp [hok, hcid, hp, hm, hvol, hgf, hgv, hcv]
  · intro hp hm hvol hcc
    unfold createRegistry createRegistryFinish
    simp [hok, hcid, hp, hm, hvol, hcc]
  · intro hp hm hvol hcc hs
    unfold createRegistry createRegistryFinish
    simp [hok, hcid, hp, hm, hvol, hcc, hs]

/-- Witness for the amended C6: the fatal port-spec case. -/
theorem create_construction_failures_abort_witness :
    ((envPortFail.portParseFails = true →
      (createRegistry envPortFail specDefault).outcome
        = .fatal ("Error: failed to parse port specs " ++ registryPortSpec specDefault))
    ∧ (envPortFail.portParseFails = false → envPortFail.mergeFails = true →
        (createRegistry envPortFail specDefault).outcome = .err "runtime: merge failed")
    ∧ (envPortFail.portParseFails = false → envPortFail.mergeFails = false →
        specDefault.RegistryVolume ≠ "" → envPortFail.getVolumeFails = false →
        getVolume envPortFail.volumes specDefault.RegistryVolume [] = none →
        envPortFail.createVolumeFails = true →
        (createRegistry envPortFail specDefault).outcome
          = .err (" Couldn't create volume " ++ specDefault.RegistryVolume ++ " for registry"))
    ∧ (envPortFail.portParseFails = false → envPortFail.mergeFails = false →
        specDefault.RegistryVolume = "" → envPortFail.createContainerFails = true →
        (createRegistry envPortFail specDefault).outcome
          = .err (" Couldn't create registry container " ++ defaultRegistryContainerName))
    ∧ (envPortFail.portParseFails = false → envPortFail.mergeFails = false →
        specDefault.RegistryVolume = "" → envPortFail.createContainerFails = false →
        envPortFail.startNewFails = true →
        (createRegistry envPortFail specDefault).outcome
          = .err (" Couldn't start container " ++ defaultRegistryContainerName))) :=
  create_construction_failures_abort envPortFail specDefault rfl rfl

/-! ## C8 — the host-config merge -/

/-- **C8** (code bug): the creation path calls `mergo.Merge(hostConfig,
spec.HostConfig)` without `WithOverride`, whose documented semantics keep
every non-zero field of the destination — the local baseline — so on a
conflicting field the baseline wins and the caller-supplied override loses,
contradicting both the claim and the code's own comment ("merge clusterSpec
hostConfig on top of the local hostConfig").  At a concrete input whose
override carries its own port bindings, the merged host config equals the
baseline, and the container is created with the baseline's bindings, not the
override's. -/
theorem merge_baseline_wins_on_conflict :
    mergoMergeHostConfig (baselineHostConfig specOverride) specOverride.HostConfig
        = baselineHostConfig specOverride
    ∧ specOverride.HostConfig.PortBindings ≠ (baselineHostConfig specOverride).PortBindings
    ∧ (createRegistry envDefault specOverride).effects
        = [Effect.createContainer defaultRegistryContainerName (baselineHostConfig specOverride)
            [] (k3dNetworkName specOverride.ClusterName) [specOverride.RegistryName],
          Effect.startContainer envDefault.newContainerId] := by
  refine ⟨by decide, by decide, by decide⟩

end K3d
